import Mathlib

/-!
Shallow embedding of the `dinccey/distributed_batch_stt` repository:
a FastAPI coordinator (`src/server/server.py`) that dispatches audio
transcription tasks, and a worker (`src/client/client.py`) that polls it.

The server keeps its state in plain files: `DB_FILE` holds one
`id:path:timestamp` line per in-progress task, `FAILED_FILE` holds one path
per failed task, audio files and their `.json` sidecars and `.vtt` artifacts
live in a directory tree, and `processed.csv` is an audit log.  The embedding
models those files as lists inside a `ServerState` record; wall-clock
timestamps (Python floats from `time.time()`) are modelled as natural-number
seconds, which preserves every comparison the code performs.  Locking is not
modelled inside a single handler: each handler below is the sequential
execution of one request; the one interleaving the code permits (the
candidate scan of `GET /task` runs outside the lock, only the DB append is
locked) is modelled explicitly by `twoClaimsInterleaved`.
-/

namespace Stt

/-- A Python/JSON value as produced by `json.loads` and `request.json()`.
`pynone` doubles as Python's `None` (what `dict.get` returns for a missing
key). -/
inductive PyVal where
  | pynone
  | pystr (s : String)
  | pyint (n : Int)
  | pybool (b : Bool)
  | pylist (xs : List PyVal)
  | pydict (fields : List (String × PyVal))

/-- Python truthiness (`if not x`): `None`, `""`, `0`, `False`, `[]`, and
an empty dict are falsy, everything else is truthy. -/
def truthy : PyVal → Bool
  | .pynone => false
  | .pystr s => !(s == "")
  | .pyint n => !(n == 0)
  | .pybool b => b
  | .pylist xs => !xs.isEmpty
  | .pydict fields => !fields.isEmpty

/-- Python's `v.get(k)`: on a dict it returns the value or `None`;
on anything else the attribute access raises (`none` here), which the server
code catches. -/
def pyGet (v : PyVal) (k : String) : Option PyVal :=
  match v with
  | .pydict fields =>
    match fields.lookup k with
    | some x => some x
    | none => some .pynone
  | _ => none

/-- Python's `a == b` where `b` is a `str`: true only when `a` is an equal
string (comparison of a non-`str` with a `str` yields `False`). -/
def pyEqStr (v : PyVal) (t : String) : Bool :=
  match v with
  | .pystr u => u == t
  | _ => false

/-! ## MD5 over natural numbers

`server.py` computes `hashlib.md5(path_str.encode()).hexdigest()`.
MD5 is embedded here over `Nat` with explicit `% 2^32` where 32-bit
arithmetic wraps; the message is the UTF-8 byte sequence of the path. -/

/-- The 64 MD5 round constants `K[i] = floor(2^32 * abs(sin(i+1)))`. -/
def md5K : List Nat :=
  [0xd76aa478, 0xe8c7b756, 0x242070db, 0xc1bdceee,
   0xf57c0faf, 0x4787c62a, 0xa8304613, 0xfd469501,
   0x698098d8, 0x8b44f7af, 0xffff5bb1, 0x895cd7be,
   0x6b901122, 0xfd987193, 0xa679438e, 0x49b40821,
   0xf61e2562, 0xc040b340, 0x265e5a51, 0xe9b6c7aa,
   0xd62f105d, 0x02441453, 0xd8a1e681, 0xe7d3fbc8,
   0x21e1cde6, 0xc33707d6, 0xf4d50d87, 0x455a14ed,
   0xa9e3e905, 0xfcefa3f8, 0x676f02d9, 0x8d2a4c8a,
   0xfffa3942, 0x8771f681, 0x6d9d6122, 0xfde5380c,
   0xa4beea44, 0x4bdecfa9, 0xf6bb4b60, 0xbebfbc70,
   0x289b7ec6, 0xeaa127fa, 0xd4ef3085, 0x04881d05,
   0xd9d4d039, 0xe6db99e5, 0x1fa27cf8, 0xc4ac5665,
   0xf4292244, 0x432aff97, 0xab9423a7, 0xfc93a039,
   0x655b59c3, 0x8f0ccc92, 0xffeff47d, 0x85845dd1,
   0x6fa87e4f, 0xfe2ce6e0, 0xa3014314, 0x4e0811a1,
   0xf7537e82, 0xbd3af235, 0x2ad7d2bb, 0xeb86d391]

/-- The 64 MD5 per-round left-rotation amounts. -/
def md5S : List Nat :=
  [7, 12, 17, 22, 7, 12, 17, 22, 7, 12, 17, 22, 7, 12, 17, 22,
   5, 9, 14, 20, 5, 9, 14, 20, 5, 9, 14, 20, 5, 9, 14, 20,
   4, 11, 16, 23, 4, 11, 16, 23, 4, 11, 16, 23, 4, 11, 16, 23,
   6, 10, 15, 21, 6, 10, 15, 21, 6, 10, 15, 21, 6, 10, 15, 21]

/-- 32-bit left rotation of `x` (assumed `< 2^32`) by `r` bits. -/
def rotl32 (x r : Nat) : Nat :=
  (x * 2 ^ r + x / 2 ^ (32 - r)) % 4294967296

/-- 32-bit bitwise complement of `x` (assumed `< 2^32`). -/
def not32 (x : Nat) : Nat := 4294967295 - x

/-- MD5 padding: append `0x80`, zero bytes up to 56 mod 64, then the original
bit length as 8 little-endian bytes. -/
def md5Pad (msg : List Nat) : List Nat :=
  let len := msg.length
  let bitLen := (len * 8) % (2 ^ 64)
  let zeros := (56 + 64 - ((len + 1) % 64)) % 64
  msg ++ [0x80] ++ List.replicate zeros 0 ++
    ((List.range 8).map (fun i => bitLen / 2 ^ (8 * i) % 256))

/-- Split a byte list into 64-byte blocks. -/
def toBlocks (l : List Nat) : List (List Nat) :=
  match l with
  | [] => []
  | a :: rest => ((a :: rest).take 64) :: toBlocks ((a :: rest).drop 64)
termination_by l.length
decreasing_by simp [List.length_drop]; omega

/-- Little-endian 32-bit word `g` of a 64-byte block. -/
def leWord (block : List Nat) (g : Nat) : Nat :=
  block.getD (4 * g) 0 + 256 * block.getD (4 * g + 1) 0 +
    65536 * block.getD (4 * g + 2) 0 + 16777216 * block.getD (4 * g + 3) 0

/-- One of the 64 MD5 operations on the running state `(a, b, c, d)`. -/
def md5Step (block : List Nat) (st : Nat × Nat × Nat × Nat) (i : Nat) :
    Nat × Nat × Nat × Nat :=
  let a := st.1
  let b := st.2.1
  let c := st.2.2.1
  let d := st.2.2.2
  let f :=
    if i < 16 then (b &&& c) ||| (not32 b &&& d)
    else if i < 32 then (d &&& b) ||| (not32 d &&& c)
    else if i < 48 then b ^^^ c ^^^ d
    else c ^^^ (b ||| not32 d)
  let g :=
    if i < 16 then i
    else if i < 32 then (5 * i + 1) % 16
    else if i < 48 then (3 * i + 5) % 16
    else (7 * i) % 16
  let tmp := (f + a + md5K.getD i 0 + leWord block g) % 4294967296
  (d, (b + rotl32 tmp (md5S.getD i 0)) % 4294967296, b, c)

/-- Process one 64-byte block, adding the mixed state back into the incoming
state modulo `2^32`. -/
def md5Chunk (st : Nat × Nat × Nat × Nat) (block : List Nat) :
    Nat × Nat × Nat × Nat :=
  let m := (List.range 64).foldl (md5Step block) st
  ((st.1 + m.1) % 4294967296,
   (st.2.1 + m.2.1) % 4294967296,
   (st.2.2.1 + m.2.2.1) % 4294967296,
   (st.2.2.2 + m.2.2.2) % 4294967296)

/-- The four 32-bit MD5 state words after absorbing the whole message. -/
def md5Digest (msg : List Nat) : Nat × Nat × Nat × Nat :=
  (toBlocks (md5Pad msg)).foldl md5Chunk
    (0x67452301, 0xefcdab89, 0x98badcfe, 0x10325476)

/-- The 4 little-endian bytes of a 32-bit word. -/
def wordLEBytes (x : Nat) : List Nat :=
  [x % 256, x / 256 % 256, x / 65536 % 256, x / 16777216 % 256]

/-- The 16 digest bytes of MD5. -/
def md5Bytes (msg : List Nat) : List Nat :=
  wordLEBytes (md5Digest msg).1 ++ wordLEBytes (md5Digest msg).2.1 ++
    wordLEBytes (md5Digest msg).2.2.1 ++ wordLEBytes (md5Digest msg).2.2.2

/-- Lowercase hexadecimal digit for `n < 16`. -/
def hexDigitChar : Nat → Char
  | 0 => '0' | 1 => '1' | 2 => '2' | 3 => '3' | 4 => '4'
  | 5 => '5' | 6 => '6' | 7 => '7' | 8 => '8' | 9 => '9'
  | 10 => 'a' | 11 => 'b' | 12 => 'c' | 13 => 'd' | 14 => 'e' | 15 => 'f'
  | _ => '0'

/-- The two lowercase hex characters of one byte. -/
def byteHex (b : Nat) : List Char :=
  [hexDigitChar (b / 16 % 16), hexDigitChar (b % 16)]

/-- `hashlib.md5(s.encode()).hexdigest()`: the 32-character lowercase
hexadecimal MD5 digest of the UTF-8 bytes of `s`. -/
def md5Hex (s : String) : String :=
  String.mk (((md5Bytes (s.toUTF8.toList.map UInt8.toNat)).map byteHex).flatten)

/-! ## Coordinator state (`server.py`) -/

/-- `TASK_TIMEOUT = 360000` seconds, the lease duration. -/
def taskTimeout : Nat := 360000

/-- One line of `DB_FILE` (`id:path:timestamp`), the in-progress table. -/
structure DBEntry where
  id : String
  path : String
  ts : Nat
deriving DecidableEq

/-- One audio file of the tree walked by `Path(root_dir).rglob` together with
its sidecar: `sidecar = none` models a missing `.json` file, `some none` a
file `json.loads` rejects, `some (some v)` a parsed value `v`.  `content` is
the byte content streamed as the response body. -/
structure AudioFile where
  path : String
  content : String
  sidecar : Option (Option PyVal)

/-- The coordinator's on-disk state: the audio tree (in `rglob` order), the
set of audio paths whose sibling `.vtt` artifact exists, the `DB_FILE` lines,
the `FAILED_FILE` lines, and the `processed.csv` rows
`(filepath, fileid, error)` (the ip/datetime columns are not modelled). -/
structure ServerState where
  files : List AudioFile
  vttFiles : List String
  inProgress : List DBEntry
  failed : List String
  csv : List (String × String × String)

/-- The paths of a list of DB entries. -/
def pathsOf (db : List DBEntry) : List String := db.map DBEntry.path

/-- One step of building the Python dict `in_progress` from the DB lines:
a later line with the same path overwrites the stored timestamp. -/
def dictStep (acc : List (String × Nat)) (e : DBEntry) : List (String × Nat) :=
  if acc.any (fun pr => pr.1 == e.path) then
    acc.map (fun pr => if pr.1 == e.path then (pr.1, e.ts) else pr)
  else acc ++ [(e.path, e.ts)]

/-- The `in_progress` dict of `find_file_to_process`: path to the timestamp
of its last DB line. -/
def inProgressDict (db : List DBEntry) : List (String × Nat) :=
  db.foldl dictStep []

/-- `expired_paths`: paths whose dict timestamp satisfies
`now - ts > TASK_TIMEOUT`. -/
def expiredPaths (db : List DBEntry) (now : Nat) : List String :=
  ((inProgressDict db).filter
      (fun pr => decide (taskTimeout < now - pr.2))).map Prod.fst

/-- The outcome of one `find_file_to_process` call: either the scan's
candidate (possibly none), or the `TimeoutError` that the expiry cleanup
raises out of the handler.  The cleanup acquires the file lock, rewrites the
DB, and then calls `add_to_failed` for the first expired path while still
holding that lock; `add_to_failed` re-acquires the same non-reentrant lock
with a 4-second timeout, and the 10-second stale-lock heuristic can never
fire inside that window, so the acquisition deterministically raises. -/
inductive FindResult where
  | found (f : Option AudioFile)
  | lockTimeout

/-- The scan condition of `find_file_to_process`: no sibling `.vtt`, path not
in the in-progress table, path not in the failed list. -/
def claimable (s : ServerState) (f : AudioFile) : Bool :=
  !(s.vttFiles.contains f.path) && !((pathsOf s.inProgress).contains f.path)
    && !(s.failed.contains f.path)

/-- `find_file_to_process`: parse the DB; when no lease is expired, scan the
tree for the first claimable audio file, leaving the state untouched.  When
some lease IS expired, the cleanup rewrites the DB without the expired lines
and then self-deadlocks in `add_to_failed` (see `FindResult`): the
`TimeoutError` escapes the handler with the expired rows removed, the failed
list NOT appended, and no candidate scanned. -/
def findFileToProcess (s : ServerState) (now : Nat) :
    FindResult × ServerState :=
  let expired := expiredPaths s.inProgress now
  if expired.isEmpty then
    (.found (s.files.find? (claimable s)), s)
  else
    (.lockTimeout,
      { s with inProgress :=
          s.inProgress.filter (fun e => !(expired.contains e.path)) })

/-- The sidecar validation of `GET /task`: requires the `.json` file to
exist, parse, and contain a truthy `sql_params.language`; on failure returns
the message of the exception the handler catches (the `json.loads` and
`AttributeError` messages are stand-ins for Python's wording). -/
def validateSidecar (sc : Option (Option PyVal)) : Except String PyVal :=
  match sc with
  | none => .error "Missing JSON"
  | some none => .error "Invalid JSON"
  | some (some v) =>
    match pyGet v "sql_params" with
    | none => .error "AttributeError"
    | some sp =>
      match pyGet sp "language" with
      | none => .error "AttributeError"
      | some l => if truthy l then .ok l else .error "Missing language key"

/-- The metadata-failure arm of the `GET /task` loop: `log_to_csv` and
`add_to_failed` for the candidate. -/
def markFailed (s : ServerState) (f : AudioFile) (e : String) : ServerState :=
  { s with failed := s.failed ++ [f.path],
           csv := s.csv ++ [(f.path, md5Hex f.path, e)] }

/-- The claim commit of `GET /task`: append `id:path:now` to the DB under the
lock. -/
def claimTask (s : ServerState) (f : AudioFile) (now : Nat) : ServerState :=
  { s with inProgress := s.inProgress ++ [⟨md5Hex f.path, f.path, now⟩] }

/-- The response of `GET /task`: `204 No Content`, the `500` FastAPI
produces when `find_file_to_process` raises out of the handler, or `200 OK`
with the `X-Task-ID` and `X-Language` headers and the streamed file body. -/
inductive GetTaskResult where
  | noContent
  | serverError
  | ok (taskId : String) (language : PyVal) (body : String)

/-- Whether a `GET /task` response is a `200`. -/
def GetTaskResult.isOk : GetTaskResult → Bool
  | .ok _ _ _ => true
  | _ => false

/-- The `X-Task-ID` header of a `200` response. -/
def taskIdOf : GetTaskResult → Option String
  | .ok id _ _ => some id
  | _ => none

/-- The `while attempts < max_attempts` loop of `get_task`; the fuel is the
number of remaining attempts, consumed only by metadata validation failures.
A `TimeoutError` from the expiry cleanup propagates out of the whole
handler as a 5xx. -/
def getTaskLoop : Nat → ServerState → Nat → GetTaskResult × ServerState
  | 0, s, _ => (.noContent, s)
  | Nat.succ fuel, s, now =>
    let r := findFileToProcess s now
    match r.1 with
    | .lockTimeout => (.serverError, r.2)
    | .found c =>
      match c with
      | none => (.noContent, r.2)
      | some f =>
        match validateSidecar f.sidecar with
        | .error e => getTaskLoop fuel (markFailed r.2 f e) now
        | .ok lang =>
          (.ok (md5Hex f.path) lang f.content, claimTask r.2 f now)

/-- `max_attempts = 3` in `get_task`. -/
def getTaskMaxAttempts : Nat := 3

/-- The `GET /task` handler. -/
def getTask (s : ServerState) (now : Nat) : GetTaskResult × ServerState :=
  getTaskLoop getTaskMaxAttempts s now

/-- The path of the most recently appended DB line, i.e. of the last claim
committed into the in-progress table. -/
def lastClaimPath (s : ServerState) : Option String :=
  s.inProgress.getLast?.map DBEntry.path

/-- HTTP status of the `POST /result` and `POST /error` handlers;
`serverError` is the 500 FastAPI produces when the handler raises after the
request validation (e.g. when `write_text` fails). -/
inductive PostResponse where
  | ok
  | badRequest
  | notFound
  | serverError
deriving DecidableEq

/-- The string value of a `PyVal` known to be a string (used only after
`pyEqStr` matched). -/
def pyStrVal : PyVal → String
  | .pystr s => s
  | _ => ""

/-- `POST /result` with body fields `id` and `vtt` (`pynone` models an absent
field, as `data.get` returns `None`).  Faithfully to the code: after the 400
check, the matching DB lines are removed and the DB rewritten while holding
the lock, the lock is released, and only then is the artifact written; a
failing write (`writeOk = false`) raises out of the handler, leaving the row
already removed.  On success the artifact is recorded and a CSV row
logged. -/
def postResult (s : ServerState) (idv vttv : PyVal) (writeOk : Bool) :
    PostResponse × ServerState :=
  if !(truthy idv) || !(truthy vttv) then (.badRequest, s)
  else
    match s.inProgress.find? (fun e => pyEqStr idv e.id) with
    | none => (.notFound, s)
    | some e =>
      let s1 : ServerState :=
        { s with inProgress := s.inProgress.filter (fun x => !(pyEqStr idv x.id)) }
      match vttv with
      | .pystr _ =>
        if writeOk then
          (.ok, { s1 with vttFiles := s1.vttFiles ++ [e.path],
                          csv := s1.csv ++ [(e.path, pyStrVal idv, "")] })
        else (.serverError, s1)
      | _ => (.serverError, s1)

/-- `POST /error` with body field `id` (`pynone` models an absent field) and
the logged error message.  The matching DB lines are removed and a CSV row is
written; nothing is appended to `FAILED_FILE`. -/
def postError (s : ServerState) (idv : PyVal) (errMsg : String) :
    PostResponse × ServerState :=
  if !(truthy idv) then (.badRequest, s)
  else
    match s.inProgress.find? (fun e => pyEqStr idv e.id) with
    | none => (.notFound, s)
    | some e =>
      (.ok, { s with
                inProgress := s.inProgress.filter (fun x => !(pyEqStr idv x.id)),
                csv := s.csv ++ [(e.path, pyStrVal idv, errMsg)] })

/-- Two concurrent `GET /task` requests in the interleaving the code permits:
the candidate scan of `get_task` runs without the lock, only the DB append is
locked, so both requests may scan before either commits.  Defined for the
schedule scan1-scan2-commit1-commit2 on the success path; `none` on any other
branch. -/
def twoClaimsInterleaved (s : ServerState) (now : Nat) :
    Option (GetTaskResult × GetTaskResult × ServerState) :=
  match findFileToProcess s now with
  | (.found (some f1), s1) =>
    match findFileToProcess s1 now with
    | (.found (some f2), s2) =>
      match validateSidecar f1.sidecar, validateSidecar f2.sidecar with
      | .ok l1, .ok l2 =>
        let s3 := claimTask s2 f1 now
        let s4 := claimTask s3 f2 now
        some (.ok (md5Hex f1.path) l1 f1.content,
              .ok (md5Hex f2.path) l2 f2.content, s4)
      | _, _ => none
    | _ => none
  | _ => none

/-! ## Worker state (`client.py`) -/

/-- One row of the worker's `processed.csv`
`(file_id, language, status, reason)`; the `time_taken` and `audio_minutes`
columns are floats holding only reporting data and are not modelled. -/
structure WCsvRow where
  fileId : String
  language : String
  status : String
  reason : String
deriving DecidableEq

/-- The worker's durability state: `processed_uploaded/` and
`processed_not_uploaded/` as lists of `(filename, content)` pairs,
`not_processed_failed_report/` as the list of (empty) marker file names, and
the local `processed.csv` rows. -/
structure WorkerState where
  uploaded : List (String × String)
  notUploaded : List (String × String)
  failedReport : List String
  csv : List WCsvRow
deriving DecidableEq

/-- The outcome of the download/ffprobe/ffmpeg/whisper/read-vtt `try` block
of one `process_loop` iteration: failure before whisper wrote
`<id>.wav.vtt`, failure after the artifact exists (e.g. the final read of the
`.vtt` raises), or success with the artifact's content in hand (the file is
still on disk).  `reason` is `str(e)` of the caught exception. -/
inductive PipelineOutcome where
  | failBeforeArtifact (reason : String)
  | failAfterArtifact (vtt : String) (reason : String)
  | success (vtt : String)

/-- The `except` handler of the pipeline `try` block: log a CSV failure row,
attempt a single `POST /error` (`errorOk` is whether it returned 200; both a
non-200 status and a raised exception take the marker branch), create the
`not_processed_failed_report/<id>` marker if the report failed and no marker
exists, then `cleanup_files(current_files)` — which deletes the `.mp3`,
`.wav` AND the `.vtt` artifact if present. -/
def pipelineFailureHandler (taskId language reason : String) (errorOk : Bool)
    (w : WorkerState) : WorkerState :=
  let w1 := { w with csv := w.csv ++ [⟨taskId, language, "failure", reason⟩] }
  if errorOk then w1
  else if taskId ∈ w1.failedReport then w1
  else { w1 with failedReport := w1.failedReport ++ [taskId] }

/-- One `process_loop` iteration after a `200 OK` poll, given the pipeline
outcome, the results `r1 r2 r3` of the up-to-three `POST /result` attempts
(`true` = HTTP 200; an attempt not reached leaves its flag unused) and the
result of the single `POST /error`.  On upload success the artifact moves to
`processed_uploaded/<id>.vtt`; after three failed uploads it moves to
`processed_not_uploaded/<id>.vtt` and an error is reported (marker on
failure); the trailing cleanup removes the scratch files and any leftover
`.vtt`. -/
def processOneTask (taskId language : String) (outcome : PipelineOutcome)
    (r1 r2 r3 : Bool) (errorOk : Bool) (w : WorkerState) : WorkerState :=
  match outcome with
  | .failBeforeArtifact reason =>
    pipelineFailureHandler taskId language reason errorOk w
  | .failAfterArtifact _ reason =>
    pipelineFailureHandler taskId language reason errorOk w
  | .success vtt =>
    if r1 || r2 || r3 then
      { w with csv := w.csv ++ [⟨taskId, language, "success", ""⟩],
               uploaded := w.uploaded ++ [(taskId ++ ".vtt", vtt)] }
    else
      let w1 := { w with
        csv := w.csv ++
          [⟨taskId, language, "failure", "Failed to post result after 3 attempts"⟩],
        notUploaded := w.notUploaded ++ [(taskId ++ ".vtt", vtt)] }
      if errorOk then w1
      else if taskId ∈ w1.failedReport then w1
      else { w1 with failedReport := w1.failedReport ++ [taskId] }

/-- A retry loop `for attempt in range(n)` over an oracle of per-attempt
outcomes: returns whether some attempt returned 200 and how many requests
were issued; `i` is the index of the next attempt. -/
def attemptPostsAux (oks : Nat → Bool) (i : Nat) : Nat → Bool × Nat
  | 0 => (false, i)
  | Nat.succ n =>
    if oks i then (true, i + 1) else attemptPostsAux oks (i + 1) n

/-- Up to `n` POST attempts starting from attempt `0`. -/
def attemptPosts (oks : Nat → Bool) (n : Nat) : Bool × Nat :=
  attemptPostsAux oks 0 n

/-- Python's `s.endswith(suffix)`. -/
def strEndsWith (s suffix : String) : Bool := suffix.data.isSuffixOf s.data

/-- Python's `s[:-n]`, dropping the final `n` characters. -/
def strDropRight (s : String) (n : Nat) : String :=
  String.mk (s.data.take (s.data.length - n))

/-- The body of the first pass of `retry_failed` for one directory entry of
`processed_not_uploaded/` (with readable content `content`): skip non-`.vtt`
names; otherwise `task_id = filename[:-4]`, try `POST /result` up to 3 times;
on success move the file to `processed_uploaded/` and delete a matching
marker; on failure issue a SINGLE `POST /error` (one `try` around one
request) and, if it did not return 200 or raised, ensure the
`not_processed_failed_report/<task_id>` marker exists.  Returns the new
state, the number of `POST /result` requests issued and the number of
`POST /error` requests issued. -/
def retryOneNotUploaded (filename content : String)
    (resOks errOks : Nat → Bool) (w : WorkerState) :
    WorkerState × Nat × Nat :=
  if !(strEndsWith filename ".vtt") then (w, 0, 0)
  else
    let taskId := strDropRight filename 4
    let posted := attemptPosts resOks 3
    if posted.1 then
      ({ w with
          notUploaded := w.notUploaded.filter (fun pr => !(pr.1 == filename)),
          uploaded := w.uploaded ++ [(filename, content)],
          failedReport := w.failedReport.filter (fun x => !(x == taskId)) },
        posted.2, 0)
    else
      if errOks 0 then (w, posted.2, 1)
      else if taskId ∈ w.failedReport then (w, posted.2, 1)
      else ({ w with failedReport := w.failedReport ++ [taskId] }, posted.2, 1)

/-- Modelled from the spec: the same first pass of the Retry Driver as the
spec describes it ("emit `POST /error` (again up to 3 attempts) and, if that
also fails, ensure a `failed_report/<task_id>` marker exists").  The only
difference from `retryOneNotUploaded` is that the error report is retried up
to 3 times.  Used to compare the code against the claimed behaviour. -/
def retryOneNotUploadedSpec (filename content : String)
    (resOks errOks : Nat → Bool) (w : WorkerState) :
    WorkerState × Nat × Nat :=
  if !(strEndsWith filename ".vtt") then (w, 0, 0)
  else
    let taskId := strDropRight filename 4
    let posted := attemptPosts resOks 3
    if posted.1 then
      ({ w with
          notUploaded := w.notUploaded.filter (fun pr => !(pr.1 == filename)),
          uploaded := w.uploaded ++ [(filename, content)],
          failedReport := w.failedReport.filter (fun x => !(x == taskId)) },
        posted.2, 0)
    else
      let reported := attemptPosts errOks 3
      if reported.1 then (w, posted.2, reported.2)
      else if taskId ∈ w.failedReport then (w, posted.2, reported.2)
      else ({ w with failedReport := w.failedReport ++ [taskId] },
             posted.2, reported.2)

/-! ## Concrete fixture states used by the counterexamples and witnesses -/

/-- Sidecar metadata parsing to `{"sql_params": {"language": "en"}}`. -/
def enSidecar : Option (Option PyVal) :=
  some (some (.pydict [("sql_params", .pydict [("language", .pystr "en")])]))

/-- A server state with one in-progress row and no files. -/
def c1State : ServerState :=
  { files := [], vttFiles := [], inProgress := [⟨"i1", "/a.mp3", 0⟩],
    failed := [], csv := [] }

/-- A valid audio file at `/a.mp3`. -/
def c2File : AudioFile :=
  { path := "/a.mp3", content := "bytesA", sidecar := enSidecar }

/-- One valid file whose row is in progress under id `i1`, artifact absent. -/
def c2State : ServerState :=
  { files := [c2File], vttFiles := [], inProgress := [⟨"i1", "/a.mp3", 0⟩],
    failed := [], csv := [] }

/-- A valid audio file at `/p.mp3`. -/
def c3FileP : AudioFile :=
  { path := "/p.mp3", content := "bytesP", sidecar := enSidecar }

/-- `/p.mp3` claimed at time `0` by a worker that never reports, artifact
absent. -/
def c3State : ServerState :=
  { files := [c3FileP], vttFiles := [],
    inProgress := [⟨"ip", "/p.mp3", 0⟩], failed := [], csv := [] }

/-- The empty coordinator state. -/
def c4Empty : ServerState :=
  { files := [], vttFiles := [], inProgress := [], failed := [], csv := [] }

/-- A single valid candidate file at `/g.mp3`. -/
def c4GoodFile : AudioFile :=
  { path := "/g.mp3", content := "bytesG", sidecar := enSidecar }

/-- A coordinator state with only `/g.mp3`, claimable. -/
def c4Good : ServerState :=
  { files := [c4GoodFile], vttFiles := [], inProgress := [], failed := [],
    csv := [] }

/-- A single valid candidate file at `/clip.mp3`. -/
def c8File : AudioFile :=
  { path := "/clip.mp3", content := "clipbytes", sidecar := enSidecar }

/-- A coordinator state with only `/clip.mp3`, claimable. -/
def c8State : ServerState :=
  { files := [c8File], vttFiles := [], inProgress := [], failed := [],
    csv := [] }

/-- A single valid candidate file at `/one.mp3`. -/
def c9File : AudioFile :=
  { path := "/one.mp3", content := "bytesOne", sidecar := enSidecar }

/-- A coordinator state with only `/one.mp3`, claimable. -/
def c9State : ServerState :=
  { files := [c9File], vttFiles := [], inProgress := [], failed := [],
    csv := [] }

/-- A valid audio file at `/wa.mp3`. -/
def c9wFileA : AudioFile :=
  { path := "/wa.mp3", content := "bytesWA", sidecar := enSidecar }

/-- A valid audio file at `/wb.mp3`. -/
def c9wFileB : AudioFile :=
  { path := "/wb.mp3", content := "bytesWB", sidecar := enSidecar }

/-- A coordinator state with the two claimable files `/wa.mp3`, `/wb.mp3`. -/
def c9wState : ServerState :=
  { files := [c9wFileA, c9wFileB], vttFiles := [], inProgress := [],
    failed := [], csv := [] }

/-- The empty worker state. -/
def w0 : WorkerState :=
  { uploaded := [], notUploaded := [], failedReport := [], csv := [] }

/-- A worker state with one artifact awaiting upload retry. -/
def c7State : WorkerState :=
  { uploaded := [], notUploaded := [("t1.vtt", "WEBVTT c")],
    failedReport := [], csv := [] }

/-- A worker state with one artifact awaiting upload retry, for the witness. -/
def c7wState : WorkerState :=
  { uploaded := [], notUploaded := [("w7.vtt", "WEBVTT w")],
    failedReport := [], csv := [] }

/-! ## Helper lemmas about the task loop -/

theorem ffp_no_expiry (s : ServerState) (now : Nat)
    (h : expiredPaths s.inProgress now = []) :
    findFileToProcess s now = (.found (s.files.find? (claimable s)), s) := by
  unfold findFileToProcess
  rw [h]
  rfl

theorem ffp_expiry (s : ServerState) (now : Nat)
    (h : expiredPaths s.inProgress now ≠ []) :
    findFileToProcess s now =
      (.lockTimeout,
        { s with inProgress :=
            (s.inProgress.filter
              (fun e => !((expiredPaths s.inProgress now).contains e.path))) }) := by
  have hne : (expiredPaths s.inProgress now).isEmpty = false := by
    cases hc : expiredPaths s.inProgress now with
    | nil => exact absurd hc h
    | cons a t => rfl
  unfold findFileToProcess
  simp only [hne]
  rfl

theorem found_state_eq (s : ServerState) (now : Nat) (c : Option AudioFile)
    (h : (findFileToProcess s now).1 = .found c) :
    (findFileToProcess s now).2 = s ∧
    expiredPaths s.inProgress now = [] ∧
    s.files.find? (claimable s) = c := by
  by_cases hexp : expiredPaths s.inProgress now = []
  · rw [ffp_no_expiry s now hexp] at h ⊢
    refine ⟨rfl, hexp, ?_⟩
    simpa using h
  · rw [ffp_expiry s now hexp] at h
    simp at h

theorem markFailed_inProgress (s : ServerState) (f : AudioFile) (e : String) :
    (markFailed s f e).inProgress = s.inProgress := rfl

theorem markFailed_failed (s : ServerState) (f : AudioFile) (e : String) :
    (markFailed s f e).failed = s.failed ++ [f.path] := rfl

theorem claimTask_inProgress (s : ServerState) (f : AudioFile) (now : Nat) :
    (claimTask s f now).inProgress =
      s.inProgress ++ [⟨md5Hex f.path, f.path, now⟩] := rfl

theorem claimTask_failed (s : ServerState) (f : AudioFile) (now : Nat) :
    (claimTask s f now).failed = s.failed := rfl

theorem claimable_props (s : ServerState) (f : AudioFile)
    (h : claimable s f = true) :
    f.path ∉ s.vttFiles ∧ f.path ∉ pathsOf s.inProgress ∧
    f.path ∉ s.failed := by
  unfold claimable at h
  simp only [Bool.and_eq_true, Bool.not_eq_true'] at h
  obtain ⟨⟨h1, h2⟩, h3⟩ := h
  exact ⟨by simpa using h1, by simpa using h2, by simpa using h3⟩

theorem candidate_props (s : ServerState) (now : Nat) (f : AudioFile)
    (h : (findFileToProcess s now).1 = .found (some f)) :
    f.path ∉ s.vttFiles ∧ f.path ∉ pathsOf s.inProgress ∧
    f.path ∉ s.failed := by
  obtain ⟨_, _, hfind⟩ := found_state_eq s now (some f) h
  exact claimable_props s f (List.find?_some hfind)

theorem getTaskLoop_succ_expiry (n : Nat) (s : ServerState) (now : Nat)
    (h : expiredPaths s.inProgress now ≠ []) :
    getTaskLoop (n + 1) s now =
      (.serverError, (findFileToProcess s now).2) := by
  simp only [getTaskLoop, ffp_expiry s now h]

theorem getTaskLoop_succ_none (n : Nat) (s : ServerState) (now : Nat)
    (hexp : expiredPaths s.inProgress now = [])
    (hc : s.files.find? (claimable s) = none) :
    getTaskLoop (n + 1) s now = (.noContent, s) := by
  simp only [getTaskLoop, ffp_no_expiry s now hexp, hc]

theorem getTaskLoop_succ_invalid (n : Nat) (s : ServerState) (now : Nat)
    (f : AudioFile) (e : String)
    (hexp : expiredPaths s.inProgress now = [])
    (hc : s.files.find? (claimable s) = some f)
    (hv : validateSidecar f.sidecar = .error e) :
    getTaskLoop (n + 1) s now = getTaskLoop n (markFailed s f e) now := by
  simp only [getTaskLoop, ffp_no_expiry s now hexp, hc, hv]

theorem getTaskLoop_succ_valid (n : Nat) (s : ServerState) (now : Nat)
    (f : AudioFile) (lang : PyVal)
    (hexp : expiredPaths s.inProgress now = [])
    (hc : s.files.find? (claimable s) = some f)
    (hv : validateSidecar f.sidecar = .ok lang) :
    getTaskLoop (n + 1) s now =
      (.ok (md5Hex f.path) lang f.content, claimTask s f now) := by
  simp only [getTaskLoop, ffp_no_expiry s now hexp, hc, hv]

theorem getTaskLoop_ok_shape :
    ∀ (fuel : Nat) (s : ServerState) (now : Nat) (id : String) (l : PyVal)
      (b : String) (s2 : ServerState),
      getTaskLoop fuel s now = (.ok id l b, s2) →
      ∃ pre e, s2.inProgress = pre ++ [e] ∧ e.ts = now ∧
        e.id = md5Hex e.path ∧ id = md5Hex e.path := by
  intro fuel
  induction fuel with
  | zero =>
    intro s now id l b s2 h
    simp [getTaskLoop] at h
  | succ n ih =>
    intro s now id l b s2 h
    by_cases hexp : expiredPaths s.inProgress now = []
    · cases hc : s.files.find? (claimable s) with
      | none =>
        rw [getTaskLoop_succ_none n s now hexp hc] at h
        simp at h
      | some f =>
        cases hv : validateSidecar f.sidecar with
        | error e =>
          rw [getTaskLoop_succ_invalid n s now f e hexp hc hv] at h
          exact ih _ _ _ _ _ _ h
        | ok lang =>
          rw [getTaskLoop_succ_valid n s now f lang hexp hc hv] at h
          simp only [Prod.mk.injEq, GetTaskResult.ok.injEq] at h
          obtain ⟨⟨hid, _, _⟩, hs⟩ := h
          exact ⟨s.inProgress, ⟨md5Hex f.path, f.path, now⟩,
            by rw [← hs, claimTask_inProgress], rfl, rfl, hid.symm⟩
    · rw [getTaskLoop_succ_expiry n s now hexp] at h
      simp at h

theorem getTaskLoop_avoids_inProgress :
    ∀ (fuel : Nat) (s : ServerState) (now : Nat) (p : String) (id : String)
      (l : PyVal) (b : String) (s2 : ServerState),
      p ∈ pathsOf s.inProgress →
      getTaskLoop fuel s now = (.ok id l b, s2) →
      ∃ pre e, s2.inProgress = pre ++ [e] ∧ e.path ≠ p := by
  intro fuel
  induction fuel with
  | zero =>
    intro s now p id l b s2 _ h
    simp [getTaskLoop] at h
  | succ n ih =>
    intro s now p id l b s2 hp h
    by_cases hexp : expiredPaths s.inProgress now = []
    · cases hc : s.files.find? (claimable s) with
      | none =>
        rw [getTaskLoop_succ_none n s now hexp hc] at h
        simp at h
      | some f =>
        cases hv : validateSidecar f.sidecar with
        | error e =>
          rw [getTaskLoop_succ_invalid n s now f e hexp hc hv] at h
          refine ih _ now p id l b s2 ?_ h
          rw [markFailed_inProgress]
          exact hp
        | ok lang =>
          rw [getTaskLoop_succ_valid n s now f lang hexp hc hv] at h
          simp only [Prod.mk.injEq] at h
          obtain ⟨_, hs⟩ := h
          have hcl := claimable_props s f (List.find?_some hc)
          have hne : f.path ≠ p := fun hfp => hcl.2.1 (hfp ▸ hp)
          exact ⟨s.inProgress, ⟨md5Hex f.path, f.path, now⟩,
            by rw [← hs, claimTask_inProgress], hne⟩
    · rw [getTaskLoop_succ_expiry n s now hexp] at h
      simp at h

theorem getTaskLoop_responses :
    ∀ (fuel : Nat) (s : ServerState) (now : Nat),
      expiredPaths s.inProgress now = [] →
      (getTaskLoop fuel s now).1 = .noContent ∨
      (getTaskLoop fuel s now).1.isOk = true := by
  intro fuel
  induction fuel with
  | zero =>
    intro s now _
    exact Or.inl rfl
  | succ n ih =>
    intro s now hexp
    cases hc : s.files.find? (claimable s) with
    | none =>
      rw [getTaskLoop_succ_none n s now hexp hc]
      exact Or.inl rfl
    | some f =>
      cases hv : validateSidecar f.sidecar with
      | error e =>
        rw [getTaskLoop_succ_invalid n s now f e hexp hc hv]
        refine ih (markFailed s f e) now ?_
        rw [markFailed_inProgress]
        exact hexp
      | ok lang =>
        rw [getTaskLoop_succ_valid n s now f lang hexp hc hv]
        exact Or.inr rfl

/-! ## Shape of the hex digest -/

theorem hexDigitChar_mem (n : Nat) :
    hexDigitChar n ∈ ("0123456789abcdef".data) := by
  unfold hexDigitChar
  split <;> decide

theorem byteHex_mem (b : Nat) (c : Char) (h : c ∈ byteHex b) :
    c ∈ ("0123456789abcdef".data) := by
  unfold byteHex at h
  simp only [List.mem_cons, List.not_mem_nil, or_false] at h
  rcases h with rfl | rfl <;> exact hexDigitChar_mem _

theorem flatten_byteHex_mem (bs : List Nat) (c : Char)
    (h : c ∈ (bs.map byteHex).flatten) : c ∈ ("0123456789abcdef".data) := by
  rw [List.mem_flatten] at h
  obtain ⟨l, hl, hc⟩ := h
  rw [List.mem_map] at hl
  obtain ⟨b, _, rfl⟩ := hl
  exact byteHex_mem b c hc

theorem flatten_byteHex_length (bs : List Nat) :
    ((bs.map byteHex).flatten).length = 2 * bs.length := by
  induction bs with
  | nil => simp
  | cons b t ih =>
    rw [List.map_cons, List.flatten_cons, List.length_append, ih,
      List.length_cons]
    show 2 + 2 * t.length = 2 * (t.length + 1)
    omega

theorem md5Bytes_length (msg : List Nat) : (md5Bytes msg).length = 16 := by
  simp [md5Bytes, wordLEBytes]

theorem md5Hex_length (p : String) : (md5Hex p).length = 32 := by
  have h : (md5Hex p).length =
      (((md5Bytes (p.toUTF8.toList.map UInt8.toNat)).map byteHex).flatten).length :=
    rfl
  rw [h, flatten_byteHex_length, md5Bytes_length]

/-! ## Retry attempt counting -/

theorem attemptPostsAux_le (oks : Nat → Bool) :
    ∀ (n i : Nat), (attemptPostsAux oks i n).2 ≤ i + n := by
  intro n
  induction n with
  | zero =>
    intro i
    simp [attemptPostsAux]
  | succ m ih =>
    intro i
    unfold attemptPostsAux
    by_cases h : oks i
    · rw [if_pos h]
      omega
    · rw [if_neg h]
      have := ih (i + 1)
      omega

/-! ## Claim C1 -/

/-- Claim C1 counterexample: in `post_result` the matching row is removed
from the in-progress table (under the lock) BEFORE the artifact is written;
when the artifact write then fails, the handler raises (a 5xx), the row has
already left the table and no artifact exists — contradicting the claim that
the artifact is written first and that the row remains `in_progress` on a
failed write. -/
theorem postResult_write_failure_row_already_removed :
    (postResult c1State (.pystr "i1") (.pystr "WEBVTT") false).1 =
      .serverError ∧
    (postResult c1State (.pystr "i1") (.pystr "WEBVTT") false).2.inProgress =
      [] ∧
    (postResult c1State (.pystr "i1") (.pystr "WEBVTT") false).2.vttFiles =
      [] :=
  ⟨rfl, rfl, rfl⟩

/-- Claim C1 (amended): for every `POST /result` whose id matches an
in-progress row, the coordinator removes the row from the in-progress table
first and writes the artifact after: the row is removed whether or not the
write succeeds; if the write fails the response is a 5xx and the row has
already left `in_progress` (it does not remain), and no artifact is written;
if the write succeeds the response is 200 and the artifact exists. -/
theorem postResult_removes_row_before_write (s : ServerState) (i v : String)
    (writeOk : Bool) (hi : i ≠ "") (hv : v ≠ "") (e : DBEntry)
    (hfind : s.inProgress.find? (fun x => pyEqStr (.pystr i) x.id) = some e) :
    (postResult s (.pystr i) (.pystr v) writeOk).2.inProgress =
      s.inProgress.filter (fun x => !(pyEqStr (.pystr i) x.id)) ∧
    (writeOk = false →
      (postResult s (.pystr i) (.pystr v) writeOk).1 = .serverError ∧
      (postResult s (.pystr i) (.pystr v) writeOk).2.vttFiles = s.vttFiles) ∧
    (writeOk = true →
      (postResult s (.pystr i) (.pystr v) writeOk).1 = .ok ∧
      (postResult s (.pystr i) (.pystr v) writeOk).2.vttFiles =
        s.vttFiles ++ [e.path]) := by
  have hti : truthy (.pystr i) = true := by simp [truthy, hi]
  have htv : truthy (.pystr v) = true := by simp [truthy, hv]
  unfold postResult
  rw [hti, htv, hfind]
  cases writeOk <;> simp

/-- Claim C1 witness: the amended theorem evaluated at a concrete state and a
failing write. -/
theorem postResult_removes_row_before_write_witness :
    (postResult c1State (.pystr "i1") (.pystr "WEBVTT") false).2.inProgress =
      c1State.inProgress.filter (fun x => !(pyEqStr (.pystr "i1") x.id)) ∧
    (postResult c1State (.pystr "i1") (.pystr "WEBVTT") false).1 =
      .serverError :=
  have h := postResult_removes_row_before_write c1State "i1" "WEBVTT" false
    (by decide) (by decide) ⟨"i1", "/a.mp3", 0⟩ rfl
  ⟨h.1, (h.2.1 rfl).1⟩

/-! ## Claim C2 -/

/-- Claim C2 counterexample: a successful `POST /error` only removes the row
from the in-progress table — it never appends the path to the failed list —
so with the artifact absent the very next `GET /task` re-dispatches the same
path, contradicting the claim that the row moves to a terminal `failed`
status and is not immediately re-dispatched. -/
theorem postError_then_immediate_redispatch :
    (postError c2State (.pystr "i1") "boom").1 = .ok ∧
    (postError c2State (.pystr "i1") "boom").2.failed = [] ∧
    (getTask (postError c2State (.pystr "i1") "boom").2 1).1 =
      .ok (md5Hex "/a.mp3") (.pystr "en") "bytesA" :=
  ⟨rfl, rfl, rfl⟩

/-- Claim C2 (amended): a successful `POST /error` removes the matched
in-progress row from the in-progress table and leaves the failed list, the
file tree and the artifacts untouched; there is no terminal `failed` status
for error-reported rows, so a path whose artifact is absent becomes claimable
again immediately. -/
theorem postError_removes_without_failed (s : ServerState) (idv : PyVal)
    (em : String) (h : (postError s idv em).1 = .ok) :
    (postError s idv em).2.inProgress =
      s.inProgress.filter (fun x => !(pyEqStr idv x.id)) ∧
    (postError s idv em).2.failed = s.failed ∧
    (postError s idv em).2.files = s.files ∧
    (postError s idv em).2.vttFiles = s.vttFiles := by
  by_cases ht : truthy idv
  · cases hf : s.inProgress.find? (fun e => pyEqStr idv e.id) with
    | none =>
      exfalso
      revert h
      unfold postError
      simp [ht, hf]
    | some e =>
      unfold postError
      simp [ht, hf]
  · exfalso
    revert h
    unfold postError
    simp [ht]

/-- Claim C2 witness: the amended theorem evaluated at a concrete state. -/
theorem postError_removes_without_failed_witness :
    (postError c2State (.pystr "i1") "boom").2.failed = c2State.failed ∧
    (postError c2State (.pystr "i1") "boom").2.inProgress =
      c2State.inProgress.filter (fun x => !(pyEqStr (.pystr "i1") x.id)) :=
  have h := postError_removes_without_failed c2State (.pystr "i1") "boom" rfl
  ⟨h.2.1, h.1⟩

/-! ## Claim C10 -/

/-- Claim C10: every `POST /result` whose `id` or `vtt` field is absent (what
`data.get` turns into `None`) or the empty string is answered `400` before
anything is read or written, leaving the whole server state unchanged. -/
theorem postResult_rejects_missing_or_empty (s : ServerState)
    (idv vttv : PyVal) (writeOk : Bool)
    (h : idv = .pynone ∨ idv = .pystr "" ∨ vttv = .pynone ∨
      vttv = .pystr "") :
    postResult s idv vttv writeOk = (.badRequest, s) := by
  rcases h with rfl | rfl | rfl | rfl <;> simp [postResult, truthy]

/-- Claim C10 witness: a `POST /result` with `vtt = ""` and a valid id is
rejected with 400 and the state is unchanged. -/
theorem postResult_rejects_missing_or_empty_witness :
    postResult c1State (.pystr "i1") (.pystr "") true =
      (.badRequest, c1State) :=
  postResult_rejects_missing_or_empty c1State (.pystr "i1") (.pystr "") true
    (Or.inr (Or.inr (Or.inr rfl)))

/-! ## Claim C3 -/

/-- Claim C3: for a task claimed by a worker that never reports, once more
than `T_lease` seconds have elapsed the next `GET /task`'s expiry cleanup
removes the row from the in-progress table while the failed list (and the
file tree and artifacts) stay unchanged — the path is back to the pending
condition (`FAILED_FILE` is never appended: `add_to_failed` deadlocks on the
held lock and the raised `TimeoutError` aborts that request) — so the path is
claimable again, and a subsequent `GET /task` that observes no further
expired lease assigns it whenever it is the first claimable candidate with a
valid sidecar. -/
theorem lease_expiry_returns_to_pending (s : ServerState) (now : Nat)
    (p : String) (hexp : p ∈ expiredPaths s.inProgress now) :
    p ∉ pathsOf ((getTask s now).2).inProgress ∧
    ((getTask s now).2).failed = s.failed ∧
    ((getTask s now).2).files = s.files ∧
    ((getTask s now).2).vttFiles = s.vttFiles ∧
    (∀ f ∈ s.files, f.path = p → p ∉ s.failed → p ∉ s.vttFiles →
      claimable ((getTask s now).2) f = true) ∧
    (∀ (now2 : Nat) (f : AudioFile) (lang : PyVal),
      expiredPaths ((getTask s now).2).inProgress now2 = [] →
      ((getTask s now).2).files.find?
        (claimable ((getTask s now).2)) = some f →
      validateSidecar f.sidecar = .ok lang →
      getTask ((getTask s now).2) now2 =
        (.ok (md5Hex f.path) lang f.content,
          claimTask ((getTask s now).2) f now2)) := by
  have hne : expiredPaths s.inProgress now ≠ [] := by
    intro hc
    rw [hc] at hexp
    cases hexp
  have hstep : getTask s now =
      (.serverError, (findFileToProcess s now).2) :=
    getTaskLoop_succ_expiry 2 s now hne
  have hstate : ((getTask s now).2) =
      { s with inProgress :=
          (s.inProgress.filter
            (fun e => !((expiredPaths s.inProgress now).contains e.path))) } := by
    rw [hstep, ffp_expiry s now hne]
  have hnotin : p ∉ pathsOf ((getTask s now).2).inProgress := by
    rw [hstate]
    intro hmem
    obtain ⟨e, he, hep⟩ := List.mem_map.mp hmem
    obtain ⟨_, hfil⟩ := List.mem_filter.mp he
    rw [hep] at hfil
    simp only [Bool.not_eq_true'] at hfil
    exact absurd hexp (by simpa using hfil)
  refine ⟨hnotin, by rw [hstate], by rw [hstate], by rw [hstate], ?_, ?_⟩
  · intro f hf hfp hnfail hnvtt
    unfold claimable
    have h1 : ((getTask s now).2).vttFiles.contains f.path = false := by
      rw [hstate]
      simp only [hfp]
      simpa using hnvtt
    have h2 : (pathsOf ((getTask s now).2).inProgress).contains f.path =
        false := by
      simp only [hfp]
      simpa using hnotin
    have h3 : ((getTask s now).2).failed.contains f.path = false := by
      rw [hstate]
      simp only [hfp]
      simpa using hnfail
    rw [h1, h2, h3]
    rfl
  · intro now2 f lang hexp2 hfind hval
    rw [show getTask ((getTask s now).2) now2 =
        getTaskLoop (2 + 1) ((getTask s now).2) now2 from rfl,
      getTaskLoop_succ_valid 2 ((getTask s now).2) now2 f lang hexp2 hfind
        hval]

/-- Claim C3 witness: the concrete `/p.mp3` claimed at time 0 expires at
time 360001; the expiring request drops it from the in-progress table, and
the subsequent `GET /task` at time 360002 assigns the same path again. -/
theorem lease_expiry_returns_to_pending_witness :
    "/p.mp3" ∉ pathsOf ((getTask c3State 360001).2).inProgress ∧
    getTask ((getTask c3State 360001).2) 360002 =
      (.ok (md5Hex "/p.mp3") (.pystr "en") "bytesP",
        claimTask ((getTask c3State 360001).2) c3FileP 360002) :=
  have h := lease_expiry_returns_to_pending c3State 360001 "/p.mp3"
    (by decide)
  ⟨h.1, h.2.2.2.2.2 360002 c3FileP (.pystr "en") rfl rfl rfl⟩

/-! ## Claim C4 -/

/-- Claim C4 counterexample: a `GET /task` that observes an expired lease
answers a 5xx even though a valid claimable candidate exists — the expiry
cleanup calls `add_to_failed` while still holding the file lock, the
4-second acquisition loop never reaches the 10-second stale threshold, and
the raised `TimeoutError` escapes the handler — contradicting the claim that
the endpoint answers `204 No Content` rather than a 5xx. -/
theorem getTask_expired_lease_is_5xx :
    (getTask c3State 360001).1 = .serverError ∧
    validateSidecar c3FileP.sidecar = .ok (.pystr "en") ∧
    "/p.mp3" ∉ c3State.vttFiles :=
  ⟨rfl, rfl, by decide⟩

/-- Claim C4 (amended): for every `GET /task` whose scan observes NO expired
lease, `get_task` behaves as claimed: `max_attempts = 3 ∈ [3, 10]`; with no
claimable file it answers `204 No Content`; a candidate whose sidecar is
missing, malformed, or without a truthy `sql_params.language` is logged to
the CSV, appended to the failed list, and the loop moves on; exhausted fuel
answers `204`; a valid candidate is answered `200` with
`X-Task-ID = md5(path)`, `X-Language` and the file body; and every response
is `204` or `200`.  A `GET /task` that DOES observe an expired lease,
however, answers a 5xx (the expiry cleanup self-deadlocks in
`add_to_failed`), not `204`. -/
theorem getTask_validation_loop :
    (3 ≤ getTaskMaxAttempts ∧ getTaskMaxAttempts ≤ 10) ∧
    (∀ (s : ServerState) (now : Nat),
      (findFileToProcess s now).1 = .found none →
      getTask s now = (.noContent, s)) ∧
    (∀ (n : Nat) (s : ServerState) (now : Nat) (f : AudioFile) (e : String),
      (findFileToProcess s now).1 = .found (some f) →
      validateSidecar f.sidecar = .error e →
      getTaskLoop (n + 1) s now = getTaskLoop n (markFailed s f e) now) ∧
    (∀ (s : ServerState) (now : Nat), getTaskLoop 0 s now = (.noContent, s)) ∧
    (∀ (s : ServerState) (f : AudioFile) (e : String),
      f.path ∈ (markFailed s f e).failed ∧
      (markFailed s f e).csv = s.csv ++ [(f.path, md5Hex f.path, e)]) ∧
    (∀ (s : ServerState) (now : Nat) (f : AudioFile) (l : PyVal),
      (findFileToProcess s now).1 = .found (some f) →
      validateSidecar f.sidecar = .ok l →
      getTask s now =
        (.ok (md5Hex f.path) l f.content, claimTask s f now)) ∧
    (∀ (s : ServerState) (now : Nat),
      expiredPaths s.inProgress now = [] →
      (getTask s now).1 = .noContent ∨ (getTask s now).1.isOk = true) ∧
    (∀ (s : ServerState) (now : Nat),
      expiredPaths s.inProgress now ≠ [] →
      (getTask s now).1 = .serverError) := by
  refine ⟨⟨by decide, by decide⟩, ?_, ?_, ?_, ?_, ?_, ?_, ?_⟩
  · intro s now h
    obtain ⟨_, hexp, hc⟩ := found_state_eq s now none h
    exact getTaskLoop_succ_none 2 s now hexp hc
  · intro n s now f e h hv
    obtain ⟨_, hexp, hc⟩ := found_state_eq s now (some f) h
    exact getTaskLoop_succ_invalid n s now f e hexp hc hv
  · intro s now
    rfl
  · intro s f e
    exact ⟨by simp [markFailed], rfl⟩
  · intro s now f l h hv
    obtain ⟨_, hexp, hc⟩ := found_state_eq s now (some f) h
    exact getTaskLoop_succ_valid 2 s now f l hexp hc hv
  · intro s now hexp
    exact getTaskLoop_responses getTaskMaxAttempts s now hexp
  · intro s now hne
    rw [show getTask s now = getTaskLoop (2 + 1) s now from rfl,
      getTaskLoop_succ_expiry 2 s now hne]

/-- Claim C4 witness: with an empty tree the response is `204`; with a
single valid candidate the response is `200` carrying the MD5 task id, the
sidecar language and the file body; with an expired lease the response is a
5xx. -/
theorem getTask_validation_loop_witness :
    getTask c4Empty 5 = (.noContent, c4Empty) ∧
    getTask c4Good 5 =
      (.ok (md5Hex "/g.mp3") (.pystr "en") "bytesG",
        claimTask c4Good c4GoodFile 5) ∧
    (getTask c3State 360001).1 = .serverError :=
  ⟨getTask_validation_loop.2.1 c4Empty 5 rfl,
   getTask_validation_loop.2.2.2.2.2.1 c4Good 5 c4GoodFile (.pystr "en")
     rfl rfl,
   getTask_validation_loop.2.2.2.2.2.2.2 c3State 360001 (by decide)⟩

/-! ## Claim C5 -/

/-- Claim C5: in a worker iteration where transcription succeeds, all three
`POST /result` attempts fail, and the subsequent `POST /error` also fails,
the artifact ends at `processed_not_uploaded/<task_id>.vtt`, the (empty)
marker `not_processed_failed_report/<task_id>` exists, and a failure row is
appended to `processed.csv`. -/
theorem upload_and_report_failure_durability (w : WorkerState)
    (taskId language vtt : String) :
    (taskId ++ ".vtt", vtt) ∈
      (processOneTask taskId language (.success vtt) false false false false
        w).notUploaded ∧
    taskId ∈
      (processOneTask taskId language (.success vtt) false false false false
        w).failedReport ∧
    (processOneTask taskId language (.success vtt) false false false false
        w).csv =
      w.csv ++
        [⟨taskId, language, "failure",
          "Failed to post result after 3 attempts"⟩] := by
  by_cases hm : taskId ∈ w.failedReport
  · simp [processOneTask, hm]
  · simp [processOneTask, hm]

/-! ## Claim C6 -/

/-- Claim C6 counterexample: the pipeline fails after whisper produced the
artifact (the final read of the `.vtt` raises) and the `POST /error` report
succeeds; the `except` handler then runs `cleanup_files(current_files)`,
which DELETES the artifact instead of moving it to the not-uploaded bin, and
no marker is created — so this failure path ends with neither a moved
artifact nor a marker, contradicting the claim. -/
theorem post_artifact_failure_artifact_deleted :
    processOneTask "t1" "en" (.failAfterArtifact "WEBVTT x" "vtt read failed")
        false false false true w0 =
      { uploaded := [], notUploaded := [], failedReport := [],
        csv := [⟨"t1", "en", "failure", "vtt read failed"⟩] } :=
  rfl

/-- Claim C6 (amended): on a worker pipeline failure after the transcription
engine has produced the artifact, the `except` handler logs a CSV failure
row, reports the error (creating a marker only when the report fails), and
deletes the artifact together with the scratch files — the not-uploaded and
uploaded bins are untouched; an artifact reaches `processed_not_uploaded/`
only on the result-upload failure path of a successful pipeline. -/
theorem post_artifact_failure_keeps_nothing (w : WorkerState)
    (taskId language vtt reason : String) (r1 r2 r3 errorOk : Bool) :
    (processOneTask taskId language (.failAfterArtifact vtt reason) r1 r2 r3
        errorOk w).notUploaded = w.notUploaded ∧
    (processOneTask taskId language (.failAfterArtifact vtt reason) r1 r2 r3
        errorOk w).uploaded = w.uploaded ∧
    (processOneTask taskId language (.failAfterArtifact vtt reason) r1 r2 r3
        errorOk w).csv =
      w.csv ++ [⟨taskId, language, "failure", reason⟩] ∧
    (processOneTask taskId language (.failAfterArtifact vtt reason) r1 r2 r3
        errorOk w).failedReport =
      (if errorOk then w.failedReport
       else if taskId ∈ w.failedReport then w.failedReport
       else w.failedReport ++ [taskId]) := by
  cases errorOk <;> by_cases hm : taskId ∈ w.failedReport <;>
    simp [processOneTask, pipelineFailureHandler, hm]

/-! ## Claim C7 -/

/-- Claim C7 counterexample: for a `.vtt` file whose three `POST /result`
retries all fail, the code issues exactly ONE `POST /error` (not up to 3);
with an error oracle whose first answer is a failure and whose second would
succeed, the code creates a marker after its single failed attempt, while the
spec-modelled variant (`retryOneNotUploadedSpec`, 3 error attempts) succeeds
on the second attempt and leaves no marker. -/
theorem retry_error_report_single_attempt :
    (retryOneNotUploaded "t1.vtt" "WEBVTT c" (fun _ => false)
        (fun i => i != 0) c7State).2.2 = 1 ∧
    "t1" ∈ (retryOneNotUploaded "t1.vtt" "WEBVTT c" (fun _ => false)
        (fun i => i != 0) c7State).1.failedReport ∧
    (retryOneNotUploadedSpec "t1.vtt" "WEBVTT c" (fun _ => false)
        (fun i => i != 0) c7State).2.2 = 2 ∧
    "t1" ∉ (retryOneNotUploadedSpec "t1.vtt" "WEBVTT c" (fun _ => false)
        (fun i => i != 0) c7State).1.failedReport :=
  ⟨rfl, by decide, rfl, by decide⟩

/-- Claim C7 (amended): for every `.vtt` file in the not-uploaded bin the
first pass of the Retry Driver parses the task id as the filename without its
4-character extension and attempts `POST /result` up to 3 times; on success
it moves the file to `processed_uploaded/` and deletes any matching marker in
the failed-report bin, issuing no error report; on failure it attempts
`POST /error` exactly ONCE (not up to 3 times) and, if that single attempt
fails, ensures the `failed_report/<task_id>` marker exists while the file
stays in the not-uploaded bin. (The 5-second sleeps between attempts are
real-time behaviour outside this embedding.) -/
theorem retryNotUploaded_first_pass (w : WorkerState)
    (filename content : String) (resOks errOks : Nat → Bool)
    (hvtt : strEndsWith filename ".vtt" = true) :
    ((retryOneNotUploaded filename content resOks errOks w).2.1 =
        (attemptPosts resOks 3).2 ∧
      (attemptPosts resOks 3).2 ≤ 3) ∧
    ((attemptPosts resOks 3).1 = true →
      (retryOneNotUploaded filename content resOks errOks w).1 =
        { w with
            notUploaded :=
              w.notUploaded.filter (fun pr => !(pr.1 == filename)),
            uploaded := w.uploaded ++ [(filename, content)],
            failedReport :=
              w.failedReport.filter
                (fun x => !(x == strDropRight filename 4)) } ∧
      (retryOneNotUploaded filename content resOks errOks w).2.2 = 0) ∧
    ((attemptPosts resOks 3).1 = false →
      (retryOneNotUploaded filename content resOks errOks w).2.2 = 1 ∧
      (retryOneNotUploaded filename content resOks errOks w).1.notUploaded =
        w.notUploaded ∧
      (errOks 0 = false →
        strDropRight filename 4 ∈
          (retryOneNotUploaded filename content resOks errOks
            w).1.failedReport)) := by
  unfold retryOneNotUploaded
  rw [hvtt]
  cases hpost : (attemptPosts resOks 3).1 with
  | true =>
    refine ⟨⟨?_, attemptPostsAux_le resOks 3 0⟩, ?_, ?_⟩
    · simp [hpost]
    · intro _
      refine ⟨?_, ?_⟩ <;> simp [hpost]
    · intro hcontra
      exact Bool.noConfusion hcontra
  | false =>
    refine ⟨⟨?_, attemptPostsAux_le resOks 3 0⟩, ?_, ?_⟩
    · cases he : errOks 0 <;>
        by_cases hm : strDropRight filename 4 ∈ w.failedReport <;>
        simp [hpost, he, hm]
    · intro hcontra
      exact Bool.noConfusion hcontra
    · intro _
      cases he : errOks 0 <;>
        by_cases hm : strDropRight filename 4 ∈ w.failedReport <;>
        simp [hpost, he, hm]

/-- Claim C7 witness: the amended theorem evaluated at a concrete file with a
succeeding upload oracle. -/
theorem retryNotUploaded_first_pass_witness :
    (retryOneNotUploaded "w7.vtt" "WEBVTT w" (fun _ => true) (fun _ => true)
        c7wState).2.1 = (attemptPosts (fun _ => true) 3).2 ∧
    (attemptPosts (fun _ => true) 3).2 ≤ 3 :=
  have h := retryNotUploaded_first_pass c7wState "w7.vtt" "WEBVTT w"
    (fun _ => true) (fun _ => true) rfl
  ⟨h.1.1, h.1.2⟩

/-! ## Claim C8 -/

/-- Claim C8: every `200` answer of `GET /task` carries
`X-Task-ID = md5Hex(path)` of the claimed audio path (the path of the DB line
the claim just appended); the digest is always 32 characters long, each a
lowercase hexadecimal digit; and the id is a pure function of the path, so
the same path always yields the same id. -/
theorem taskId_is_md5_of_path :
    (∀ (s : ServerState) (now : Nat), (getTask s now).1.isOk = true →
      taskIdOf (getTask s now).1 =
        (lastClaimPath (getTask s now).2).map md5Hex) ∧
    (∀ p : String, (md5Hex p).length = 32 ∧
      ∀ c ∈ (md5Hex p).data, c ∈ ("0123456789abcdef".data)) ∧
    (∀ p q : String, p = q → md5Hex p = md5Hex q) := by
  refine ⟨?_, ?_, ?_⟩
  · intro s now hok
    cases hr : (getTask s now).1 with
    | noContent =>
      rw [hr] at hok
      simp [GetTaskResult.isOk] at hok
    | serverError =>
      rw [hr] at hok
      simp [GetTaskResult.isOk] at hok
    | ok id l b =>
      have heq : getTask s now = (.ok id l b, (getTask s now).2) := by
        rw [← hr]
      obtain ⟨pre, e, hshape, _, _, hid⟩ :=
        getTaskLoop_ok_shape getTaskMaxAttempts s now id l b _ heq
      unfold taskIdOf lastClaimPath
      rw [hshape, List.getLast?_concat]
      simp [hid]
  · intro p
    exact ⟨md5Hex_length p, fun c hc => flatten_byteHex_mem _ c hc⟩
  · intro p q h
    rw [h]

/-- Claim C8 witness: the theorem evaluated at a concrete claim of
`/clip.mp3` and the digest shape at a concrete path. -/
theorem taskId_is_md5_of_path_witness :
    taskIdOf (getTask c8State 5).1 =
      (lastClaimPath (getTask c8State 5).2).map md5Hex ∧
    (md5Hex "/clip.mp3").length = 32 :=
  ⟨taskId_is_md5_of_path.1 c8State 5 rfl,
   (taskId_is_md5_of_path.2.1 "/clip.mp3").1⟩

/-! ## Claim C9 -/

/-- Claim C9 counterexample: the candidate scan of `get_task` runs OUTSIDE
the file lock (only the DB append is locked), so two concurrent `GET /task`
requests may both scan before either commits; in that legal interleaving both
requests answer `200` with the SAME `X-Task-ID` for `/one.mp3`, and the final
in-progress table holds that id twice while the task is non-terminal —
contradicting the claim that concurrent claims are distinct. -/
theorem concurrent_claims_can_collide :
    twoClaimsInterleaved c9State 5 =
      some (.ok (md5Hex "/one.mp3") (.pystr "en") "bytesOne",
            .ok (md5Hex "/one.mp3") (.pystr "en") "bytesOne",
            { c9State with inProgress :=
                [⟨md5Hex "/one.mp3", "/one.mp3", 5⟩,
                 ⟨md5Hex "/one.mp3", "/one.mp3", 5⟩] }) :=
  rfl

/-- Claim C9 (amended): when `GET /task` requests are serialized (each
completes before the next begins) and the first claim's lease has not yet
expired, two successive `200` answers claim DISTINCT paths; concurrently
interleaved requests, by contrast, can claim the same task because the
candidate scan is not under the lock. -/
theorem serialized_claims_distinct_paths (s : ServerState) (n1 n2 : Nat)
    (h1 : (getTask s n1).1.isOk = true)
    (h2 : (getTask (getTask s n1).2 n2).1.isOk = true)
    (hl : n2 - n1 ≤ taskTimeout) :
    (lastClaimPath (getTask s n1).2).isSome = true ∧
    lastClaimPath (getTask s n1).2 ≠
      lastClaimPath (getTask (getTask s n1).2 n2).2 := by
  cases hr1 : (getTask s n1).1 with
  | noContent =>
    rw [hr1] at h1
    simp [GetTaskResult.isOk] at h1
  | serverError =>
    rw [hr1] at h1
    simp [GetTaskResult.isOk] at h1
  | ok id1 l1 b1 =>
    have heq1 : getTask s n1 = (.ok id1 l1 b1, (getTask s n1).2) := by
      rw [← hr1]
    obtain ⟨pre1, e1, hshape1, hts1, _, _⟩ :=
      getTaskLoop_ok_shape getTaskMaxAttempts s n1 id1 l1 b1 _ heq1
    cases hr2 : (getTask (getTask s n1).2 n2).1 with
    | noContent =>
      rw [hr2] at h2
      simp [GetTaskResult.isOk] at h2
    | serverError =>
      rw [hr2] at h2
      simp [GetTaskResult.isOk] at h2
    | ok id2 l2 b2 =>
      have heq2 : getTask (getTask s n1).2 n2 =
          (.ok id2 l2 b2, (getTask (getTask s n1).2 n2).2) := by
        rw [← hr2]
      have hmem : e1.path ∈ pathsOf ((getTask s n1).2).inProgress := by
        rw [hshape1]
        exact List.mem_map.mpr
          ⟨e1, List.mem_append_right _ (List.mem_singleton.mpr rfl), rfl⟩
      obtain ⟨pre2, e2, hshape2, hne⟩ :=
        getTaskLoop_avoids_inProgress getTaskMaxAttempts ((getTask s n1).2)
          n2 e1.path id2 l2 b2 _ hmem heq2
      constructor
      · unfold lastClaimPath
        rw [hshape1, List.getLast?_concat]
        rfl
      · unfold lastClaimPath
        rw [hshape1, hshape2, List.getLast?_concat, List.getLast?_concat]
        intro hc
        have hc2 : e1.path = e2.path := by simpa using hc
        exact hne hc2.symm

/-- Claim C9 witness: the amended theorem evaluated on two serialized claims
over the two-file tree `/wa.mp3`, `/wb.mp3`. -/
theorem serialized_claims_distinct_paths_witness :
    (lastClaimPath (getTask c9wState 5).2).isSome = true ∧
    lastClaimPath (getTask c9wState 5).2 ≠
      lastClaimPath (getTask (getTask c9wState 5).2 6).2 :=
  serialized_claims_distinct_paths c9wState 5 6 rfl rfl (by decide)

end Stt
